import Mathlib

/-!
Shallow embedding of the simulation/render core of the Permafrost engine
(src/scene.c, src/event.c, src/anim/anim.c, src/game/game.c) and proofs of
the specified properties.  C unions are embedded as records carrying every
member, C arrays indexed by integers as total functions, the fixed-size
double buffer as a pair indexed by Fin 2, and machine floats used only in
order comparisons as rational numbers.  External collaborators that are not
part of these files (SDL ticks, frustum tests, settings, script calls) are
passed in as explicit parameters or oracles.
-/

namespace PFE

/-- Entity flag bitset (ENTITY_FLAG_* bits of the flags word), one named
boolean per bit. -/
structure EntityFlags where
  animated   : Bool
  collision  : Bool
  static     : Bool
  selectable : Bool
  combatable : Bool
  invisible  : Bool
  zombie     : Bool
deriving DecidableEq

/-- Render command, opaque to this model (function pointer plus copied
argument bytes). -/
abbrev RCmd := Nat

/-- Render workspace: a FIFO of render commands plus the bump arena holding
the copied argument bytes (struct render_workspace). -/
structure Workspace where
  commands : List RCmd
  arena    : List Nat
deriving DecidableEq

/-- Modelled from the spec: R_ClearWS (render_ctrl, not under src/) resets
(clears, does not free) the workspace command queue and its arena. -/
def R_ClearWS (ws : Workspace) : Workspace :=
  { ws with commands := [], arena := [] }

/-- The double-buffering part of struct gamestate: the two workspaces, the
index of the simulation-writable one, the deferred-free list of deleted
entities, and (as the model of AL_EntityFree side effects) the list of
entities freed so far. -/
structure BufferState where
  ws          : Fin 2 → Workspace
  curr_ws_idx : Fin 2
  deleted     : List Nat
  freed       : List Nat

/-- G_GetSimWS: the workspace the simulation thread writes. -/
def G_GetSimWS (gs : BufferState) : Workspace :=
  gs.ws gs.curr_ws_idx

/-- G_GetRenderWS: the workspace the render thread reads,
index (curr_ws_idx + 1) mod 2. -/
def G_GetRenderWS (gs : BufferState) : Workspace :=
  gs.ws (gs.curr_ws_idx + 1)

/-- G_SwapBuffers: free every entity on the deferred-free list, reset that
list, clear the about-to-become-writable workspace (the render-side one,
whose queue the source asserts is already drained) and flip curr_ws_idx.
The M_AL_ShallowCopy call touches only map state and is omitted. -/
def G_SwapBuffers (gs : BufferState) : BufferState :=
  let sim_idx := gs.curr_ws_idx
  let render_idx := sim_idx + 1
  { ws := Function.update gs.ws render_idx (R_ClearWS (gs.ws render_idx))
    curr_ws_idx := render_idx
    deleted := []
    freed := gs.freed ++ gs.deleted }

/-! ## Animation data model (anim_data.h / anim_ctx.h as used by anim.c) -/

/-- Local joint transform: separate scale, quaternion rotation and
translation (struct SQT). -/
structure Vec3 where
  x : ℚ
  y : ℚ
  z : ℚ
deriving DecidableEq

/-- Quaternion component of an SQT. -/
structure Quat where
  x : ℚ
  y : ℚ
  z : ℚ
  w : ℚ
deriving DecidableEq

/-- Scale / quaternion / translation local transform. -/
structure SQT where
  scale         : Vec3
  quat_rotation : Quat
  trans         : Vec3
deriving DecidableEq

/-- Homogeneous 4x4 transform matrix (mat4x4_t), over the rationals as the
model of the float entries. -/
abbrev Mat4 := Matrix (Fin 4) (Fin 4) ℚ

/-- One frame sample of a clip: a local-space SQT per joint (struct
anim_sample; the precomputed bounding volume is not used by the claims). -/
structure AnimSample where
  local_joint_poses : Nat → SQT

/-- Named fixed-length clip of frame samples (struct anim_clip). -/
structure AnimClip where
  name       : String
  num_frames : Nat
  samples    : Nat → AnimSample

/-- Playback mode of the active clip. -/
inductive AnimMode where
  | loop
  | once
  | once_hide_on_finish
deriving DecidableEq

/-- Per-entity animation context (struct anim_ctx): active and idle clip
references, playback mode, key frame rate, current frame index and the tick
at which the current frame started. -/
structure AnimCtx where
  active                : AnimClip
  idle                  : AnimClip
  mode                  : AnimMode
  key_fps               : Nat
  curr_frame            : Nat
  curr_frame_start_ticks : Nat

/-- Skeleton: joints as integer parent back-references plus the bind-pose
SQT per joint (struct skeleton; the cached inverse bind matrices are not
needed by the claims). -/
structure Skeleton where
  num_joints : Nat
  parent_idx : Nat → Int
  bind_sqts  : Nat → SQT

/-- Per-entity animation private data (struct anim_data): the skeleton and
the clip list. -/
structure AnimData where
  skel  : Skeleton
  anims : List AnimClip

/-- Entity as used by these files: uid, flag bitset, faction id, opaque
render handle, opaque model matrix snapshot (Entity_ModelMatrix lives in
entity.c, outside src/), animation context and private animation data. -/
structure Ent where
  uid            : Nat
  flags          : EntityFlags
  faction_id     : Int
  render_private : Nat
  model_mat      : Nat
  anim           : AnimCtx
  anim_data      : AnimData

/-- Notifications posted by the animation sampler via E_Entity_Notify. -/
inductive AnimEvent where
  | cycleFinished (uid : Nat)
  | finished (uid : Nat)
deriving DecidableEq

/-! ## Matrix primitives (pf_math.c is not under src/; modelled from the
spec as the standard operations on 4x4 rational matrices: multiplication is
matrix multiplication, PFM_Mat4x4_Identity is the identity matrix). -/

/-- Modelled from the spec: PFM_Mat4x4_MakeScale, the diagonal scale
matrix. -/
def PFM_Mat4x4_MakeScale (sx sy sz : ℚ) : Mat4 :=
  Matrix.diagonal ![sx, sy, sz, 1]

/-- Modelled from the spec: PFM_Mat4x4_MakeTrans, the homogeneous
translation matrix. -/
def PFM_Mat4x4_MakeTrans (tx ty tz : ℚ) : Mat4 :=
  !![1, 0, 0, tx;
     0, 1, 0, ty;
     0, 0, 1, tz;
     0, 0, 0, 1]

/-- Modelled from the spec: PFM_Mat4x4_RotFromQuat, the standard rotation
matrix of a quaternion. The claims depend only on the composition order of
this factor, not on its entries. -/
def PFM_Mat4x4_RotFromQuat (q : Quat) : Mat4 :=
  !![1 - 2*(q.y*q.y + q.z*q.z), 2*(q.x*q.y - q.z*q.w),     2*(q.x*q.z + q.y*q.w),     0;
     2*(q.x*q.y + q.z*q.w),     1 - 2*(q.x*q.x + q.z*q.z), 2*(q.y*q.z - q.x*q.w),     0;
     2*(q.x*q.z - q.y*q.w),     2*(q.y*q.z + q.x*q.w),     1 - 2*(q.x*q.x + q.y*q.y), 0;
     0,                         0,                         0,                         1]

/-! ## anim.c -/

/-- a_clip_for_name: linear scan of the private clip list for the first
clip with the given name. -/
def a_clip_for_name (anims : List AnimClip) (name : String) : Option AnimClip :=
  anims.find? (fun c => c.name == name)

/-- a_mat_from_sqt: local transform of an SQT, computed as
trans * (rot * scale), i.e. the T * R * S product. -/
def a_mat_from_sqt (sqt : SQT) : Mat4 :=
  let scale := PFM_Mat4x4_MakeScale sqt.scale.x sqt.scale.y sqt.scale.z
  let trans := PFM_Mat4x4_MakeTrans sqt.trans.x sqt.trans.y sqt.trans.z
  let rot := PFM_Mat4x4_RotFromQuat sqt.quat_rotation
  trans * (rot * scale)

/-- One step of the upward parent walk: stay put on a negative index,
otherwise move to the parent of the current joint. -/
def chainStep (parent : Nat → Int) (i : Int) : Int :=
  if i < 0 then i else parent i.toNat

/-- The parent chain of a joint: k applications of chainStep starting from
the joint index. -/
def parentChain (parent : Nat → Int) (j : Int) : Nat → Int
  | 0 => j
  | k + 1 => chainStep parent (parentChain parent j k)

/-- The while-loop shared by a_make_bind_mat and a_make_pose_mat: walk up
the parent chain, accumulating acc := local(idx) * acc, until the index is
negative. The C loop is unbounded; the embedding carries explicit fuel and
returns none when the fuel is exhausted before the chain terminates. -/
def walkMat (parent : Nat → Int) (locals : Nat → Mat4) :
    Nat → Int → Mat4 → Option Mat4
  | 0, idx, acc => if idx < 0 then some acc else none
  | fuel + 1, idx, acc =>
    if idx < 0 then some acc
    else walkMat parent locals fuel (parent idx.toNat) (locals idx.toNat * acc)

/-- a_make_bind_mat: upward walk over the bind SQTs starting from the
identity accumulator, with fuel num_joints (sufficient for every acyclic
skeleton, see the termination theorem). -/
def a_make_bind_mat (joint_idx : Int) (skel : Skeleton) : Option Mat4 :=
  walkMat skel.parent_idx (fun i => a_mat_from_sqt (skel.bind_sqts i))
    skel.num_joints joint_idx 1

/-- a_make_pose_mat: same walk over the local joint poses of the sample of
the active clip at the current frame. -/
def a_make_pose_mat (ent : Ent) (joint_idx : Int) (skel : Skeleton) : Option Mat4 :=
  let ctx := ent.anim
  let sample := (ctx.active.samples ctx.curr_frame)
  walkMat skel.parent_idx (fun i => a_mat_from_sqt (sample.local_joint_poses i))
    skel.num_joints joint_idx 1

/-- A_SetActiveClip: look up the clip by name (asserted present in the
source; modelled as a no-op when absent) and reset the playback state onto
it. SDL_GetTicks is passed in as now. -/
def A_SetActiveClip (ent : Ent) (name : String) (mode : AnimMode)
    (key_fps : Nat) (now : Nat) : Ent :=
  match a_clip_for_name ent.anim_data.anims name with
  | some clip =>
    { ent with anim := { ent.anim with
        active := clip
        mode := mode
        key_fps := key_fps
        curr_frame := 0
        curr_frame_start_ticks := now } }
  | none => ent

/-- Elapsed milliseconds since the current frame started, with the uint32
wraparound of the SDL tick difference. -/
def elapsedMs (start now : Nat) : Nat :=
  (now + 2 ^ 32 - start) % 2 ^ 32

/-- A_Update: advance the frame index modulo the clip length once the
elapsed wall-clock time exceeds one frame period; on wraparound to frame 0
emit the cycle-finished notification and, for the once modes, emit the
finished notification, set the invisible flag in the hide-on-finish mode,
and switch back to the idle clip in loop mode. The float comparison of the
source is modelled over the rationals. Returns the updated entity and the
notifications it posted, in order. -/
def A_Update (ent : Ent) (curr_ticks : Nat) : Ent × List AnimEvent :=
  let ctx := ent.anim
  let frame_period_secs : ℚ := 1 / ctx.key_fps
  let elapsed_secs : ℚ := (elapsedMs ctx.curr_frame_start_ticks curr_ticks : ℚ) / 1000
  if frame_period_secs < elapsed_secs then
    let cf := (ctx.curr_frame + 1) % ctx.active.num_frames
    let ctx1 := { ctx with curr_frame := cf, curr_frame_start_ticks := curr_ticks }
    let ent1 := { ent with anim := ctx1 }
    if cf = 0 then
      match ctx1.mode with
      | AnimMode.loop => (ent1, [AnimEvent.cycleFinished ent.uid])
      | AnimMode.once =>
        (A_SetActiveClip ent1 ctx1.idle.name AnimMode.loop ctx1.key_fps curr_ticks,
         [AnimEvent.cycleFinished ent.uid, AnimEvent.finished ent.uid])
      | AnimMode.once_hide_on_finish =>
        let ent2 := { ent1 with flags := { ent1.flags with invisible := true } }
        (A_SetActiveClip ent2 ctx1.idle.name AnimMode.loop ctx1.key_fps curr_ticks,
         [AnimEvent.cycleFinished ent.uid, AnimEvent.finished ent.uid])
    else
      (ent1, [])
  else
    (ent, [])

/-- A_GetRenderState: the per-joint pose matrices (via a_make_pose_mat),
the joint count, and the opaque inverse-bind pointer. -/
def A_GetRenderState (ent : Ent) : Nat × List (Option Mat4) × Nat :=
  let skel := ent.anim_data.skel
  (skel.num_joints,
   (List.range skel.num_joints).map (fun j => a_make_pose_mat ent (j : Int) skel),
   ent.render_private)

/-! ## game.c: render command producer -/

/-- Static-entity render state snapshot (struct ent_stat_rstate): opaque
render handle plus model matrix snapshot. -/
structure EntStatRState where
  render_private : Nat
  model          : Nat
deriving DecidableEq

/-- Animated-entity render state snapshot (struct ent_anim_rstate): handle,
model matrix, current pose matrices, inverse-bind pointer and joint
count. -/
structure EntAnimRState where
  render_private : Nat
  model          : Nat
  njoints        : Nat
  curr_pose      : List (Option Mat4)
  inv_bind_pose  : Nat

/-- The static render state g_make_draw_list builds for a non-animated
entity. -/
def statRStateOf (e : Ent) : EntStatRState :=
  { render_private := e.render_private, model := e.model_mat }

/-- The animated render state g_make_draw_list builds for an animated
entity, filled in by A_GetRenderState. -/
def animRStateOf (e : Ent) : EntAnimRState :=
  let rs := A_GetRenderState e
  { render_private := e.render_private
    model := e.model_mat
    njoints := rs.1
    curr_pose := rs.2.1
    inv_bind_pose := rs.2.2 }

/-- g_make_draw_list: walk the visibility list in order and append each
entity to the animated list iff its animated flag is set, to the static
list otherwise. -/
def g_make_draw_list : List Ent → List EntStatRState × List EntAnimRState
  | [] => ([], [])
  | e :: rest =>
    let (stat, anim) := g_make_draw_list rest
    if e.flags.animated then
      (stat, animRStateOf e :: anim)
    else
      (statRStateOf e :: stat, anim)

/-- Render input snapshot (struct render_input). -/
structure RenderInput where
  cam            : Nat
  map            : Nat
  shadows        : Bool
  cam_vis_stat   : List EntStatRState
  cam_vis_anim   : List EntAnimRState
  light_vis_stat : List EntStatRState
  light_vis_anim : List EntAnimRState

/-- g_create_render_input: snapshot the camera, map and shadow setting and
classify the camera-visible and light-visible sets into static/animated
draw lists. The visibility sets and the settings read are parameters (the
settings registry is outside src/). -/
def g_create_render_input (visible light_visible : List Ent)
    (cam map : Nat) (shadows : Bool) : RenderInput :=
  let cams := g_make_draw_list visible
  let lights := g_make_draw_list light_visible
  { cam := cam
    map := map
    shadows := shadows
    cam_vis_stat := cams.1
    cam_vis_anim := cams.2
    light_vis_stat := lights.1
    light_vis_anim := lights.2 }

/-! ## game.c: per-tick update and entity lifecycle -/

/-- Modelled from the spec: the G_RUNNING member of enum simstate
(gamestate.h is not under src/); simulation states are a bitmask and
G_RUNNING is its first bit. -/
def G_RUNNING : Nat := 1

/-- G_Zombiefy, flags part: strip the selectable, collision, combatable and
animated flags and set the invisible, static and zombie flags. The
bookkeeping calls (selection removal, dynamic-set removal, movement and
combat removal) touch collaborator state outside this model. -/
def G_Zombiefy (ent : Ent) : Ent :=
  { ent with flags := { ent.flags with
      selectable := false
      collision := false
      combatable := false
      animated := false
      invisible := true
      static := true
      zombie := true } }

/-- Result of one G_Update pass over the entity registry. -/
structure UpdateResult where
  ents          : List Ent
  visible       : List Ent
  light_visible : List Ent
  events        : List AnimEvent

/-- The body of the kh_foreach loop of G_Update for one entity: run
A_Update when the simulation is running and the entity is animated, then
skip entities without the collision flag or with the invisible flag, and
otherwise add the entity to the visibility sets its OBB intersects. The
frustum tests are oracles (camVis, lightVis). -/
def g_update_ent (ss curr_ticks : Nat) (camVis lightVis : Ent → Bool)
    (acc : UpdateResult) (e : Ent) : UpdateResult :=
  let (e1, evs) :=
    if ss = G_RUNNING ∧ e.flags.animated then A_Update e curr_ticks else (e, [])
  let acc := { acc with ents := acc.ents ++ [e1], events := acc.events ++ evs }
  if !e1.flags.collision then acc
  else if e1.flags.invisible then acc
  else
    let acc := if camVis e1 then { acc with visible := acc.visible ++ [e1] } else acc
    if lightVis e1 then { acc with light_visible := acc.light_visible ++ [e1] } else acc

/-- G_Update: reset the visibility sets and run the per-entity body over
the whole registry. Map update, camera/frustum construction and selection
update are collaborator calls outside this model. -/
def G_Update (ents : List Ent) (ss curr_ticks : Nat)
    (camVis lightVis : Ent → Bool) : UpdateResult :=
  ents.foldl (g_update_ent ss curr_ticks camVis lightVis)
    { ents := [], visible := [], light_visible := [], events := [] }

/-! ## game.c: faction table and diplomacy matrix -/

/-- Modelled from the spec: enum diplomacy_state (game.h is not under
src/); the pairwise diplomacy states, DIPLOMACY_STATE_PEACE being the
default for a new faction. -/
inductive DiplomacyState where
  | peace
  | war
  | neutral
deriving DecidableEq

/-- Faction record: name, color, controllability. -/
structure Faction where
  name         : String
  color        : Vec3
  controllable : Bool
deriving DecidableEq

/-- Modelled from the spec: MAX_FACTIONS (game.h is not under src/), the
small fixed capacity of the faction array. The claims depend only on it
being positive. -/
def MAX_FACTIONS : Nat := 16

/-- Modelled from the spec: MAX_FAC_NAME_LEN (game.h is not under src/),
the capacity of a faction name buffer. -/
def MAX_FAC_NAME_LEN : Nat := 32

/-- The faction-related part of struct gamestate: the faction count, the
faction array and the pairwise diplomacy matrix, both embedded as total
functions over integer indices (entries outside the first num_factions
indices are stale storage, exactly as in the fixed C arrays). -/
structure FactionState where
  num_factions    : Nat
  factions        : Int → Faction
  diplomacy_table : Int → Int → DiplomacyState

/-- G_AddFaction: reject a full table or an over-long name, else append the
faction at index num_factions, mark it mutually at peace with every
existing faction, and bump the count. -/
def G_AddFaction (st : FactionState) (name : String) (color : Vec3) :
    Bool × FactionState :=
  if st.num_factions = MAX_FACTIONS then (false, st)
  else if MAX_FAC_NAME_LEN ≤ name.length then (false, st)
  else
    let new_fac_id : Int := st.num_factions
    (true,
     { num_factions := st.num_factions + 1
       factions := fun i =>
         if i = new_fac_id then { name := name, color := color, controllable := true }
         else st.factions i
       diplomacy_table := fun i j =>
         if 0 ≤ i ∧ i < new_fac_id ∧ j = new_fac_id then DiplomacyState.peace
         else if i = new_fac_id ∧ 0 ≤ j ∧ j < new_fac_id then DiplomacyState.peace
         else st.diplomacy_table i j })

/-- G_SetDiplomacyState: bounds-check both ids, reject self pairs, else
write the state into both symmetric cells. -/
def G_SetDiplomacyState (st : FactionState) (fac_id_a fac_id_b : Int)
    (ds : DiplomacyState) : Bool × FactionState :=
  if fac_id_a < 0 ∨ (st.num_factions : Int) ≤ fac_id_a then (false, st)
  else if fac_id_b < 0 ∨ (st.num_factions : Int) ≤ fac_id_b then (false, st)
  else if fac_id_a = fac_id_b then (false, st)
  else
    (true,
     { st with diplomacy_table := fun i j =>
         if i = fac_id_b ∧ j = fac_id_a then ds
         else if i = fac_id_a ∧ j = fac_id_b then ds
         else st.diplomacy_table i j })

/-- G_GetDiplomacyState: same validity checks, then read one cell. -/
def G_GetDiplomacyState (st : FactionState) (fac_id_a fac_id_b : Int) :
    Option DiplomacyState :=
  if fac_id_a < 0 ∨ (st.num_factions : Int) ≤ fac_id_a then none
  else if fac_id_b < 0 ∨ (st.num_factions : Int) ≤ fac_id_b then none
  else if fac_id_a = fac_id_b then none
  else some (st.diplomacy_table fac_id_a fac_id_b)

/-- G_RemoveFaction: refuse when fewer than two factions exist or the id is
out of range; otherwise delete the entities of the faction and decrement
higher faction ids, shift the diplomacy rows past the removed row up
(first memmove), shift the columns past the removed column left inside
every surviving row (memmove loop), shift the faction array, and decrement
the count. -/
def G_RemoveFaction (st : FactionState) (ents : List Ent) (faction_id : Int) :
    Bool × FactionState × List Ent :=
  if st.num_factions < 2 then (false, st, ents)
  else if faction_id < 0 ∨ (st.num_factions : Int) ≤ faction_id then (false, st, ents)
  else
    let n : Int := st.num_factions
    let ents2 := ents.filterMap (fun e =>
      if e.faction_id = faction_id then none
      else if faction_id < e.faction_id then some { e with faction_id := e.faction_id - 1 }
      else some e)
    let rows : Int → Int → DiplomacyState := fun i j =>
      if faction_id ≤ i ∧ i < n - 1 then st.diplomacy_table (i + 1) j
      else st.diplomacy_table i j
    let cols : Int → Int → DiplomacyState := fun i j =>
      if 0 ≤ i ∧ i < n - 1 ∧ faction_id ≤ j ∧ j < n - 1 then rows i (j + 1)
      else rows i j
    (true,
     { num_factions := st.num_factions - 1
       factions := fun i =>
         if faction_id ≤ i ∧ i < n - 1 then st.factions (i + 1) else st.factions i
       diplomacy_table := cols },
     ents2)

/-! ## scene.c -/

/-- Attribute type tag (enum of the typed key/value attribute format). -/
inductive AttrType where
  | string
  | quat
  | vec3
  | bool
  | float
  | int
deriving DecidableEq

/-- Parsed attribute (struct attr). The C value union is embedded as a
record carrying every member; only the member matching the type tag is
meaningful, the rest model the unspecified union bytes. -/
structure Attr where
  key       : String
  type      : AttrType
  as_string : String
  as_quat   : Quat
  as_vec3   : Vec3
  as_bool   : Bool
  as_float  : ℚ
  as_int    : Int
deriving DecidableEq

/-- One line of a scene file, embedded at the level of which sscanf pattern
it matches: the header counts, a faction header, an entity header, a line
that parses as a typed attribute, or anything else. -/
inductive SceneLine where
  | numFactionsLine (n : Nat)
  | numEntitiesLine (n : Nat)
  | factionLine (name : String)
  | entityLine (name path : String) (num_atts : Nat)
  | attrLine (a : Attr)
  | badLine
deriving DecidableEq

/-- scene_parse_att: read one line and require it to parse as a typed
attribute; fails on end of stream or on any other line shape. -/
def scene_parse_att : List SceneLine → Option (Attr × List SceneLine)
  | SceneLine.attrLine a :: rest => some (a, rest)
  | _ => none

/-- scene_load_faction: read the faction header line, parse one attribute,
require it to be a vec3, and only then add the faction (the boolean result
of G_AddFaction is ignored by the source). On any earlier failure the
registry is untouched. -/
def scene_load_faction (stream : List SceneLine) (st : FactionState) :
    Option (List SceneLine × FactionState) :=
  match stream with
  | SceneLine.factionLine name :: rest =>
    match scene_parse_att rest with
    | some (color, rest2) =>
      if color.type = AttrType.vec3 then
        some (rest2, (G_AddFaction st name color.as_vec3).2)
      else none
    | none => none
  | _ => none

/-- The anonymous constructor-argument sub-loop of scene_load_entity. -/
def scene_read_anon_atts : Nat → List SceneLine → Option (List SceneLine)
  | 0, stream => some stream
  | k + 1, stream =>
    match scene_parse_att stream with
    | some (_, rest) => scene_read_anon_atts k rest
    | none => none

/-- The attribute loop of scene_load_entity: read num_atts attributes, and
after a constructor_arguments attribute additionally read that many
anonymous attributes (the as_int union member is read whatever the tag
is). -/
def scene_read_atts : Nat → List SceneLine → Option (List SceneLine)
  | 0, stream => some stream
  | n + 1, stream =>
    match scene_parse_att stream with
    | some (attr, rest) =>
      if attr.key = "constructor_arguments" then
        match scene_read_anon_atts attr.as_int.toNat rest with
        | some rest2 => scene_read_atts n rest2
        | none => none
      else scene_read_atts n rest
    | none => none

/-- scene_load_entity: read the entity header and its attributes and hand
them to S_Entity_ObjFromAtts, an external script call represented by the
objFromAtts oracle (entity registration happens inside it, outside the
files under src/). -/
def scene_load_entity (objFromAtts : String → String → Bool)
    (stream : List SceneLine) : Option (List SceneLine) :=
  match stream with
  | SceneLine.entityLine name path num_atts :: rest =>
    match scene_read_atts num_atts rest with
    | some rest2 => if objFromAtts path name then some rest2 else none
    | none => none
  | _ => none

/-- The faction loop of Scene_Load. The registry state is threaded through
even on failure: factions added by earlier iterations stay added. -/
def scene_load_factions :
    Nat → List SceneLine → FactionState → Option (List SceneLine) × FactionState
  | 0, stream, st => (some stream, st)
  | n + 1, stream, st =>
    match scene_load_faction stream st with
    | some (rest, st2) => scene_load_factions n rest st2
    | none => (none, st)

/-- The entity loop of Scene_Load. -/
def scene_load_entities (objFromAtts : String → String → Bool) :
    Nat → List SceneLine → Option (List SceneLine)
  | 0, stream => some stream
  | n + 1, stream =>
    match scene_load_entity objFromAtts stream with
    | some rest => scene_load_entities objFromAtts n rest
    | none => none

/-- Scene_Load: read the faction count, load that many factions, read the
entity count, load that many entities; report any failure as false. The
stream stands for the opened file (open failure is the empty behaviour of
a stream no line of which parses). -/
def Scene_Load (objFromAtts : String → String → Bool)
    (stream : List SceneLine) (st : FactionState) : Bool × FactionState :=
  match stream with
  | SceneLine.numFactionsLine num_factions :: rest =>
    match scene_load_factions num_factions rest st with
    | (some rest2, st2) =>
      (match rest2 with
       | SceneLine.numEntitiesLine num_ents :: rest3 =>
         match scene_load_entities objFromAtts num_ents rest3 with
         | some _ => (true, st2)
         | none => (false, st2)
       | _ => (false, st2))
    | (none, st2) => (false, st2)
  | _ => (false, st)

/-! ## event.c -/

/-- Handler kind: engine-native function or script-bound callable. -/
inductive HandlerType where
  | engine
  | script
deriving DecidableEq

/-- Registered handler descriptor (struct handler_desc): kind, the opaque
callable, a user argument, and the simulation-state bitmask gating its
invocation. -/
structure HandlerDesc where
  type     : HandlerType
  handler  : Nat
  user_arg : Nat
  simmask  : Nat
deriving DecidableEq

/-- Modelled from the spec: the event-type members of enum eventtype used
by E_ServiceQueue (event.h is not under src/); only their distinctness
matters. -/
def EVENT_UPDATE_START : Nat := 0

/-- Modelled from the spec: EVENT_UPDATE_UI. -/
def EVENT_UPDATE_UI : Nat := 1

/-- Modelled from the spec: EVENT_UPDATE_END. -/
def EVENT_UPDATE_END : Nat := 2

/-- Event source tag. -/
inductive EventSource where
  | engine
  | script
deriving DecidableEq

/-- Queued event record (struct event). -/
structure BusEvent where
  type        : Nat
  arg         : Nat
  source      : EventSource
  receiver_id : Nat
deriving DecidableEq

/-- GLOBAL_ID: the reserved receiver id for global events, the maximum
32-bit entity id. -/
def GLOBAL_ID : Nat := 2 ^ 32 - 1

/-- e_key: the 64-bit handler-table key, receiver id in the upper half and
event type in the lower half. -/
def e_key (ent_id : Nat) (event : Nat) : Nat :=
  (ent_id <<< 32) ||| event

/-- The handler table, embedded as the total function from keys to the
registered handler vector (absent khash keys map to the empty vector). -/
abbrev HandlerTable := Nat → List HandlerDesc

/-- e_register_handler: push the descriptor onto the end of the vector of
its key (creating the vector when the key is absent). -/
def e_register_handler (table : HandlerTable) (key : Nat) (desc : HandlerDesc) :
    HandlerTable :=
  fun k => if k = key then table key ++ [desc] else table k

/-- The dispatch loop of e_handle_event over one handler vector: walk it in
order, skip handlers whose simmask does not intersect the current
simulation state, and invoke the rest. An invocation is recorded as the
descriptor paired with the event argument it was passed. -/
def e_dispatch_vec (ss : Nat) (arg : Nat) : List HandlerDesc → List (HandlerDesc × Nat)
  | [] => []
  | h :: rest =>
    if h.simmask &&& ss = 0 then e_dispatch_vec ss arg rest
    else (h, arg) :: e_dispatch_vec ss arg rest

/-- e_handle_event: look the vector up by the exact (receiver, type) key
and run the dispatch loop over it, given the engine's current simulation
state. Returns the invocation trace. -/
def e_handle_event (table : HandlerTable) (ss : Nat) (event : BusEvent) :
    List (HandlerDesc × Nat) :=
  e_dispatch_vec ss event.arg (table (e_key event.receiver_id event.type))

/-- The pop-until-empty while loop of E_ServiceQueue over the FIFO event
queue. -/
def e_service_loop (table : HandlerTable) (ss : Nat) :
    List BusEvent → List (HandlerDesc × Nat)
  | [] => []
  | e :: rest => e_handle_event table ss e ++ e_service_loop table ss rest

/-- E_ServiceQueue: dispatch update-start synchronously, then drain the
queue in FIFO order, then update-ui, then update-end. Returns the full
invocation trace of the tick. -/
def E_ServiceQueue (table : HandlerTable) (ss : Nat) (queue : List BusEvent) :
    List (HandlerDesc × Nat) :=
  e_handle_event table ss ⟨EVENT_UPDATE_START, 0, EventSource.engine, GLOBAL_ID⟩
    ++ e_service_loop table ss queue
    ++ e_handle_event table ss ⟨EVENT_UPDATE_UI, 0, EventSource.engine, GLOBAL_ID⟩
    ++ e_handle_event table ss ⟨EVENT_UPDATE_END, 0, EventSource.engine, GLOBAL_ID⟩

/-! ## Helper lemmas -/

lemma fin2_add_one_add_one : ∀ i : Fin 2, i + 1 + 1 = i := by decide

lemma fin2_add_one_ne : ∀ i : Fin 2, i + 1 ≠ i := by decide

lemma g_make_draw_list_eq (l : List Ent) :
    g_make_draw_list l =
      ((l.filter fun e => !e.flags.animated).map statRStateOf,
       (l.filter fun e => e.flags.animated).map animRStateOf) := by
  induction l with
  | nil => rfl
  | cons e rest ih =>
    cases h : e.flags.animated <;>
      simp [g_make_draw_list, ih, List.filter_cons, h]

lemma filter_not_length_add (l : List Ent) (p : Ent → Bool) :
    (l.filter fun e => !p e).length + (l.filter p).length = l.length := by
  induction l with
  | nil => rfl
  | cons e rest ih =>
    cases h : p e <;> simp [List.filter_cons, h] <;> omega

/-! ## C2: workspace swap -/

/-- C2: after G_SwapBuffers, the simulation workspace is the slot the
render side read before the call (cleared) and the render workspace is the
slot the simulation side wrote before; the index flips between 0 and 1;
the newly simulation-writable workspace has an empty command queue and a
reset arena; the deferred-free list is empty and every entity that was on
it has been freed during the swap. -/
theorem swap_buffers_flips_and_resets (gs : BufferState) :
    (G_SwapBuffers gs).curr_ws_idx = gs.curr_ws_idx + 1 ∧
    G_GetSimWS (G_SwapBuffers gs) = R_ClearWS (G_GetRenderWS gs) ∧
    G_GetRenderWS (G_SwapBuffers gs) = G_GetSimWS gs ∧
    (G_GetSimWS (G_SwapBuffers gs)).commands = [] ∧
    (G_GetSimWS (G_SwapBuffers gs)).arena = [] ∧
    (G_SwapBuffers gs).deleted = [] ∧
    (G_SwapBuffers gs).freed = gs.freed ++ gs.deleted := by
  refine ⟨rfl, ?_, ?_, ?_, ?_, rfl, rfl⟩
  · simp [G_GetSimWS, G_SwapBuffers, G_GetRenderWS]
  · simp [G_GetRenderWS, G_SwapBuffers, G_GetSimWS, fin2_add_one_add_one gs.curr_ws_idx,
      Function.update_noteq (fin2_add_one_ne gs.curr_ws_idx)]
  · simp [G_GetSimWS, G_SwapBuffers, R_ClearWS]
  · simp [G_GetSimWS, G_SwapBuffers, R_ClearWS]

/-! ## C3: draw-list classification -/

/-- C3: in every produced render input, for any mix of entity flags, the
animated list is exactly the animated-flagged entities of the visibility
set in order and the static list exactly the rest, so each visible entity
lands in exactly one list and the list sizes sum to the visibility-set
size, for both the camera-visible and the light-visible sets. -/
theorem render_input_classification (visible light_visible : List Ent)
    (cam map : Nat) (shadows : Bool) :
    (g_create_render_input visible light_visible cam map shadows).cam_vis_anim
        = (visible.filter fun e => e.flags.animated).map animRStateOf ∧
    (g_create_render_input visible light_visible cam map shadows).cam_vis_stat
        = (visible.filter fun e => !e.flags.animated).map statRStateOf ∧
    (g_create_render_input visible light_visible cam map shadows).cam_vis_stat.length
        + (g_create_render_input visible light_visible cam map shadows).cam_vis_anim.length
        = visible.length ∧
    (g_create_render_input visible light_visible cam map shadows).light_vis_anim
        = (light_visible.filter fun e => e.flags.animated).map animRStateOf ∧
    (g_create_render_input visible light_visible cam map shadows).light_vis_stat
        = (light_visible.filter fun e => !e.flags.animated).map statRStateOf ∧
    (g_create_render_input visible light_visible cam map shadows).light_vis_stat.length
        + (g_create_render_input visible light_visible cam map shadows).light_vis_anim.length
        = light_visible.length := by
  refine ⟨?_, ?_, ?_, ?_, ?_, ?_⟩ <;>
    simp [g_create_render_input, g_make_draw_list_eq, filter_not_length_add]

/-! ## C8: event queue service order and dispatch -/

lemma e_service_loop_eq (table : HandlerTable) (ss : Nat) (q : List BusEvent) :
    e_service_loop table ss q = (q.map (e_handle_event table ss)).flatten := by
  induction q with
  | nil => rfl
  | cons e rest ih => simp [e_service_loop, ih]

lemma e_dispatch_vec_eq (ss arg : Nat) (vec : List HandlerDesc) :
    e_dispatch_vec ss arg vec =
      (vec.filter fun h => !(h.simmask &&& ss == 0)).map (fun h => (h, arg)) := by
  induction vec with
  | nil => rfl
  | cons h rest ih =>
    by_cases hm : h.simmask &&& ss = 0 <;>
      simp [e_dispatch_vec, List.filter_cons, hm, ih]

/-- C8: E_ServiceQueue dispatches the update-start event, then every queued
event in FIFO order until the queue is drained, then update-ui, then
update-end; and every dispatch invokes, for the exact (receiver id, event
type) key, precisely the registered handlers whose simulation-state bitmask
intersects the current simulation state, in registration order (a
registration appends at the end of its key's vector). -/
theorem service_queue_order_and_dispatch (table : HandlerTable) (ss : Nat)
    (queue : List BusEvent) :
    E_ServiceQueue table ss queue =
        e_handle_event table ss ⟨EVENT_UPDATE_START, 0, EventSource.engine, GLOBAL_ID⟩
          ++ (queue.map (e_handle_event table ss)).flatten
          ++ e_handle_event table ss ⟨EVENT_UPDATE_UI, 0, EventSource.engine, GLOBAL_ID⟩
          ++ e_handle_event table ss ⟨EVENT_UPDATE_END, 0, EventSource.engine, GLOBAL_ID⟩ ∧
    (∀ ev : BusEvent, e_handle_event table ss ev =
        ((table (e_key ev.receiver_id ev.type)).filter
            fun h => !(h.simmask &&& ss == 0)).map (fun h => (h, ev.arg))) ∧
    (∀ (key : Nat) (desc : HandlerDesc),
        e_register_handler table key desc key = table key ++ [desc]) := by
  refine ⟨?_, ?_, ?_⟩
  · simp [E_ServiceQueue, e_service_loop_eq]
  · intro ev; simp [e_handle_event, e_dispatch_vec_eq]
  · intro key desc; simp [e_register_handler]

/-! ## C10: zombie entities are never culled into the visibility sets -/

lemma g_update_ent_visible_inv (ss t : Nat) (cv lv : Ent → Bool)
    (acc : UpdateResult) (e : Ent)
    (h : ∀ v, (v ∈ acc.visible ∨ v ∈ acc.light_visible) →
      v.flags.collision = true ∧ v.flags.invisible = false) :
    ∀ v, (v ∈ (g_update_ent ss t cv lv acc e).visible ∨
          v ∈ (g_update_ent ss t cv lv acc e).light_visible) →
      v.flags.collision = true ∧ v.flags.invisible = false := by
  intro v hv
  unfold g_update_ent at hv
  by_cases hrun : ss = G_RUNNING ∧ e.flags.animated = true
  case pos =>
    simp only [if_pos hrun] at hv
    split_ifs at hv <;>
      simp only [List.mem_append, List.mem_singleton] at hv <;>
      casesm* _ ∨ _ <;>
      first
        | exact h v (Or.inl (by assumption))
        | exact h v (Or.inr (by assumption))
        | (subst_vars; exact ⟨by simp_all, by simp_all⟩)
  case neg =>
    simp only [if_neg hrun] at hv
    split_ifs at hv <;>
      simp only [List.mem_append, List.mem_singleton] at hv <;>
      casesm* _ ∨ _ <;>
      first
        | exact h v (Or.inl (by assumption))
        | exact h v (Or.inr (by assumption))
        | (subst_vars; exact ⟨by simp_all, by simp_all⟩)

lemma g_update_foldl_visible_inv (ss t : Nat) (cv lv : Ent → Bool) :
    ∀ (ents : List Ent) (acc : UpdateResult),
      (∀ v, (v ∈ acc.visible ∨ v ∈ acc.light_visible) →
        v.flags.collision = true ∧ v.flags.invisible = false) →
      ∀ v, (v ∈ (ents.foldl (g_update_ent ss t cv lv) acc).visible ∨
            v ∈ (ents.foldl (g_update_ent ss t cv lv) acc).light_visible) →
        v.flags.collision = true ∧ v.flags.invisible = false := by
  intro ents
  induction ents with
  | nil => intro acc h; simpa using h
  | cons e rest ih =>
    intro acc h
    exact ih _ (g_update_ent_visible_inv ss t cv lv acc e h)

/-- C10: G_Zombiefy clears the selectable, collision, combatable and
animated flags and sets the invisible, static and zombie flags; and since
G_Update skips every entity lacking the collision flag or carrying the
invisible flag, a zombified entity is never placed in the camera-visible or
light-visible set by any subsequent G_Update, whatever the registry
contents, simulation state, tick and frustum oracles. -/
theorem zombiefy_flags_and_never_visible (ent : Ent) :
    (G_Zombiefy ent).flags.selectable = false ∧
    (G_Zombiefy ent).flags.collision = false ∧
    (G_Zombiefy ent).flags.combatable = false ∧
    (G_Zombiefy ent).flags.animated = false ∧
    (G_Zombiefy ent).flags.invisible = true ∧
    (G_Zombiefy ent).flags.static = true ∧
    (G_Zombiefy ent).flags.zombie = true ∧
    ∀ (ents : List Ent) (ss t : Nat) (cv lv : Ent → Bool),
      G_Zombiefy ent ∉ (G_Update ents ss t cv lv).visible ∧
      G_Zombiefy ent ∉ (G_Update ents ss t cv lv).light_visible := by
  refine ⟨rfl, rfl, rfl, rfl, rfl, rfl, rfl, ?_⟩
  intro ents ss t cv lv
  have hbase : ∀ v, (v ∈ (⟨[], [], [], []⟩ : UpdateResult).visible ∨
      v ∈ (⟨[], [], [], []⟩ : UpdateResult).light_visible) →
      v.flags.collision = true ∧ v.flags.invisible = false := by
    intro v hv; rcases hv with hv | hv <;> simp at hv
  constructor
  · intro hmem
    have := (g_update_foldl_visible_inv ss t cv lv ents _ hbase _ (Or.inl hmem)).1
    simp [G_Zombiefy] at this
  · intro hmem
    have := (g_update_foldl_visible_inv ss t cv lv ents _ hbase _ (Or.inr hmem)).1
    simp [G_Zombiefy] at this

/-! ## C5: no frame advance below one frame period -/

/-- C5: when the elapsed time since the current frame started is less than
one frame period, A_Update leaves the whole entity (in particular
curr_frame and the full animation context) unchanged and posts no
notification; with zero elapsed time the update is the identity. -/
theorem anim_update_no_advance (ent : Ent) (t : Nat)
    (h : ((elapsedMs ent.anim.curr_frame_start_ticks t : ℚ) / 1000)
          < 1 / ent.anim.key_fps) :
    A_Update ent t = (ent, []) := by
  unfold A_Update
  rw [if_neg (not_lt.mpr (le_of_lt h))]

/-! ## C4: frame advance and wraparound notifications -/

/-- C4: once the elapsed time exceeds one frame period, A_Update advances
curr_frame by one modulo the clip length and resets the frame-start
timestamp; on the update that wraps curr_frame to 0 it posts exactly one
cycle-finished notification and, in the once and once-then-hide modes,
additionally posts the finished notification, sets the invisible flag only
in the once-then-hide mode, and switches the active clip back to the idle
clip in loop mode at the same key frame rate; a non-wrapping advance posts
nothing and changes no flag, clip or mode. -/
theorem anim_update_advance_and_wrap (ent : Ent) (t : Nat)
    (hfps : 0 < ent.anim.key_fps)
    (hframes : 0 < ent.anim.active.num_frames)
    (hidle : a_clip_for_name ent.anim_data.anims ent.anim.idle.name
        = some ent.anim.idle)
    (helapsed : (1 : ℚ) / ent.anim.key_fps
        < (elapsedMs ent.anim.curr_frame_start_ticks t : ℚ) / 1000) :
    (A_Update ent t).1.anim.curr_frame
        = (ent.anim.curr_frame + 1) % ent.anim.active.num_frames ∧
    (A_Update ent t).1.anim.curr_frame_start_ticks = t ∧
    ((ent.anim.curr_frame + 1) % ent.anim.active.num_frames ≠ 0 →
       (A_Update ent t).2 = [] ∧
       (A_Update ent t).1.flags = ent.flags ∧
       (A_Update ent t).1.anim.active = ent.anim.active ∧
       (A_Update ent t).1.anim.mode = ent.anim.mode) ∧
    ((ent.anim.curr_frame + 1) % ent.anim.active.num_frames = 0 →
       (A_Update ent t).2.count (AnimEvent.cycleFinished ent.uid) = 1 ∧
       (ent.anim.mode = AnimMode.loop →
          (A_Update ent t).2 = [AnimEvent.cycleFinished ent.uid] ∧
          (A_Update ent t).1.flags = ent.flags ∧
          (A_Update ent t).1.anim.active = ent.anim.active ∧
          (A_Update ent t).1.anim.mode = AnimMode.loop) ∧
       (ent.anim.mode = AnimMode.once →
          (A_Update ent t).2
            = [AnimEvent.cycleFinished ent.uid, AnimEvent.finished ent.uid] ∧
          (A_Update ent t).1.flags = ent.flags ∧
          (A_Update ent t).1.anim.active = ent.anim.idle ∧
          (A_Update ent t).1.anim.mode = AnimMode.loop ∧
          (A_Update ent t).1.anim.key_fps = ent.anim.key_fps) ∧
       (ent.anim.mode = AnimMode.once_hide_on_finish →
          (A_Update ent t).2
            = [AnimEvent.cycleFinished ent.uid, AnimEvent.finished ent.uid] ∧
          (A_Update ent t).1.flags = { ent.flags with invisible := true } ∧
          (A_Update ent t).1.anim.active = ent.anim.idle ∧
          (A_Update ent t).1.anim.mode = AnimMode.loop ∧
          (A_Update ent t).1.anim.key_fps = ent.anim.key_fps)) := by
  by_cases hwrap : (ent.anim.curr_frame + 1) % ent.anim.active.num_frames = 0
  · cases hmode : ent.anim.mode <;>
      refine ⟨?_, ?_, fun h0 => absurd hwrap h0, fun _ => ⟨?_, ?_, ?_, ?_⟩⟩ <;>
      · unfold A_Update
        rw [if_pos helapsed]
        simp [hwrap, hmode, A_SetActiveClip, hidle, List.count_cons]
  · cases hmode : ent.anim.mode <;>
      refine ⟨?_, ?_, fun _ => ⟨?_, ?_, ?_, ?_⟩, fun h0 => absurd h0 hwrap⟩ <;>
      · unfold A_Update
        rw [if_pos helapsed]
        simp [hwrap, hmode]

/-! ## C7: diplomacy symmetry and faction-removal compaction -/

/-- C7: a successful G_SetDiplomacyState writes the state into both
symmetric cells and returns true, an out-of-range or self pair is rejected
with the table untouched, and the write preserves table symmetry; a
successful G_RemoveFaction compacts the table in place so the entry of any
two surviving factions at their renumbered indices equals their old entry,
which keeps the surviving table symmetric. -/
theorem diplomacy_symmetric_and_compacts :
    (∀ (st : FactionState) (a b : Int) (ds : DiplomacyState),
        0 ≤ a → a < (st.num_factions : Int) →
        0 ≤ b → b < (st.num_factions : Int) → a ≠ b →
        (G_SetDiplomacyState st a b ds).1 = true ∧
        (G_SetDiplomacyState st a b ds).2.diplomacy_table a b = ds ∧
        (G_SetDiplomacyState st a b ds).2.diplomacy_table b a = ds) ∧
    (∀ (st : FactionState) (a b : Int) (ds : DiplomacyState),
        (a < 0 ∨ (st.num_factions : Int) ≤ a ∨ b < 0 ∨
            (st.num_factions : Int) ≤ b ∨ a = b) →
        G_SetDiplomacyState st a b ds = (false, st)) ∧
    (∀ (st : FactionState) (a b : Int) (ds : DiplomacyState),
        (∀ i j : Int, st.diplomacy_table i j = st.diplomacy_table j i) →
        ∀ i j : Int,
          (G_SetDiplomacyState st a b ds).2.diplomacy_table i j
            = (G_SetDiplomacyState st a b ds).2.diplomacy_table j i) ∧
    (∀ (st : FactionState) (ents : List Ent) (f a b : Int),
        2 ≤ st.num_factions → 0 ≤ f → f < (st.num_factions : Int) →
        0 ≤ a → a < (st.num_factions : Int) →
        0 ≤ b → b < (st.num_factions : Int) → a ≠ f → b ≠ f →
        (G_RemoveFaction st ents f).1 = true ∧
        (G_RemoveFaction st ents f).2.1.num_factions = st.num_factions - 1 ∧
        (G_RemoveFaction st ents f).2.1.diplomacy_table
            (if f < a then a - 1 else a) (if f < b then b - 1 else b)
          = st.diplomacy_table a b) ∧
    (∀ (st : FactionState) (ents : List Ent) (f : Int),
        2 ≤ st.num_factions → 0 ≤ f → f < (st.num_factions : Int) →
        (∀ i j : Int, 0 ≤ i → i < (st.num_factions : Int) →
            0 ≤ j → j < (st.num_factions : Int) →
            st.diplomacy_table i j = st.diplomacy_table j i) →
        ∀ i j : Int, 0 ≤ i → i < (st.num_factions : Int) - 1 →
            0 ≤ j → j < (st.num_factions : Int) - 1 →
          (G_RemoveFaction st ents f).2.1.diplomacy_table i j
            = (G_RemoveFaction st ents f).2.1.diplomacy_table j i) := by
  refine ⟨?_, ?_, ?_, ?_, ?_⟩
  · intro st a b ds ha0 han hb0 hbn hab
    have g1 : ¬(a < 0 ∨ (st.num_factions : Int) ≤ a) := by omega
    have g2 : ¬(b < 0 ∨ (st.num_factions : Int) ≤ b) := by omega
    refine ⟨?_, ?_, ?_⟩ <;>
      simp [G_SetDiplomacyState, g1, g2, hab, Ne.symm hab]
  · intro st a b ds h
    unfold G_SetDiplomacyState
    split_ifs <;> first | rfl | omega
  · intro st a b ds hsym i j
    by_cases g1 : a < 0 ∨ (st.num_factions : Int) ≤ a
    · simp only [G_SetDiplomacyState, if_pos g1]; exact hsym i j
    · by_cases g2 : b < 0 ∨ (st.num_factions : Int) ≤ b
      · simp only [G_SetDiplomacyState, if_neg g1, if_pos g2]; exact hsym i j
      · by_cases g3 : a = b
        · simp only [G_SetDiplomacyState, if_neg g1, if_neg g2, if_pos g3]
          exact hsym i j
        · simp only [G_SetDiplomacyState, if_neg g1, if_neg g2, if_neg g3]
          split_ifs <;> first | rfl | exact hsym i j | tauto
  · intro st ents f a b hn2 hf0 hfn ha0 han hb0 hbn haf hbf
    have g1 : ¬(st.num_factions < 2) := by omega
    have g2 : ¬(f < 0 ∨ (st.num_factions : Int) ≤ f) := by omega
    refine ⟨?_, ?_, ?_⟩ <;>
      simp only [G_RemoveFaction, if_neg g1, if_neg g2]
    split_ifs <;> congr 1 <;> omega
  · intro st ents f hn2 hf0 hfn hsym i j hi0 hin hj0 hjn
    have g1 : ¬(st.num_factions < 2) := by omega
    have g2 : ¬(f < 0 ∨ (st.num_factions : Int) ≤ f) := by omega
    simp only [G_RemoveFaction, if_neg g1, if_neg g2]
    split_ifs <;>
      first
        | exact hsym _ _ (by omega) (by omega) (by omega) (by omega)
        | (exfalso; omega)

/-! ## C1: Scene_Load failure behaviour -/

/-- Registry preservation between two faction states: the faction count
does not shrink and every pre-existing faction entry and every diplomacy
entry between pre-existing factions is unchanged. -/
def RegistryPreserved (st st2 : FactionState) : Prop :=
  st.num_factions ≤ st2.num_factions ∧
  (∀ i : Int, 0 ≤ i → i < (st.num_factions : Int) →
    st2.factions i = st.factions i) ∧
  (∀ i j : Int, 0 ≤ i → i < (st.num_factions : Int) →
      0 ≤ j → j < (st.num_factions : Int) →
    st2.diplomacy_table i j = st.diplomacy_table i j)

lemma registryPreserved_refl (st : FactionState) : RegistryPreserved st st :=
  ⟨le_refl _, fun _ _ _ => rfl, fun _ _ _ _ _ _ => rfl⟩

lemma registryPreserved_trans {st st2 st3 : FactionState}
    (h12 : RegistryPreserved st st2) (h23 : RegistryPreserved st2 st3) :
    RegistryPreserved st st3 := by
  obtain ⟨hn12, hf12, hd12⟩ := h12
  obtain ⟨hn23, hf23, hd23⟩ := h23
  refine ⟨le_trans hn12 hn23, ?_, ?_⟩
  · intro i hi0 hin
    rw [hf23 i hi0 (by omega), hf12 i hi0 hin]
  · intro i j hi0 hin hj0 hjn
    rw [hd23 i j hi0 (by omega) hj0 (by omega), hd12 i j hi0 hin hj0 hjn]

lemma addFaction_preserved (st : FactionState) (name : String) (color : Vec3) :
    RegistryPreserved st (G_AddFaction st name color).2 := by
  unfold G_AddFaction
  split_ifs with h1 h2
  · exact registryPreserved_refl st
  · exact registryPreserved_refl st
  · refine ⟨Nat.le_succ _, ?_, ?_⟩
    · intro i hi0 hin
      show (if i = (st.num_factions : Int) then _ else st.factions i) = st.factions i
      rw [if_neg (by omega)]
    · intro i j hi0 hin hj0 hjn
      show (if 0 ≤ i ∧ i < (st.num_factions : Int) ∧ j = (st.num_factions : Int)
            then DiplomacyState.peace
            else if i = (st.num_factions : Int) ∧ 0 ≤ j ∧ j < (st.num_factions : Int)
            then DiplomacyState.peace
            else st.diplomacy_table i j) = st.diplomacy_table i j
      rw [if_neg (by omega), if_neg (by omega)]

lemma scene_load_faction_preserved {stream : List SceneLine} {st : FactionState}
    {rest : List SceneLine} {st2 : FactionState}
    (h : scene_load_faction stream st = some (rest, st2)) :
    RegistryPreserved st st2 := by
  rcases stream with _ | ⟨line, tail⟩
  · simp [scene_load_faction] at h
  · cases line <;> simp only [scene_load_faction] at h <;> try cases h
    case factionLine name =>
    rcases htail : scene_parse_att tail with _ | ⟨color, tail2⟩ <;>
      simp only [htail] at h
    · cases h
    · by_cases htype : color.type = AttrType.vec3
      · rw [if_pos htype] at h
        simp only [Option.some.injEq, Prod.mk.injEq] at h
        obtain ⟨h1, h2⟩ := h
        rw [← h2]
        exact addFaction_preserved st name color.as_vec3
      · rw [if_neg htype] at h
        cases h

lemma scene_load_factions_preserved :
    ∀ (n : Nat) (stream : List SceneLine) (st : FactionState),
      RegistryPreserved st (scene_load_factions n stream st).2 := by
  intro n
  induction n with
  | zero => intro stream st; exact registryPreserved_refl st
  | succ n ih =>
    intro stream st
    unfold scene_load_factions
    rcases hf : scene_load_faction stream st with _ | ⟨rest, st2⟩
    · exact registryPreserved_refl st
    · exact registryPreserved_trans (scene_load_faction_preserved hf) (ih rest st2)

/-- C1 (amended): whenever Scene_Load fails it reports false to the caller
and the registry content present before the call survives intact (the
faction count does not shrink and no pre-existing faction or diplomacy
entry changes); however, factions added for faction blocks parsed before
the failing step remain registered, so a failed load can leave the World
Registry extended. -/
theorem scene_load_reports_failure_preserves_existing
    (objFromAtts : String → String → Bool) (stream : List SceneLine)
    (st : FactionState) :
    RegistryPreserved st (Scene_Load objFromAtts stream st).2 := by
  unfold Scene_Load
  rcases stream with _ | ⟨line, tail⟩
  · exact registryPreserved_refl st
  · cases line <;> try exact registryPreserved_refl st
    case numFactionsLine n =>
    rcases hl : scene_load_factions n tail st with ⟨res, st2⟩
    have hpres : RegistryPreserved st st2 := by
      have := scene_load_factions_preserved n tail st
      rw [hl] at this
      exact this
    rcases res with _ | rest2
    · simpa [hl] using hpres
    · rcases rest2 with _ | ⟨line2, tail2⟩
      · simpa [hl] using hpres
      · cases line2 <;> simp only [hl] <;> try exact hpres
        case numEntitiesLine m =>
        rcases scene_load_entities objFromAtts m tail2 with _ | rest3 <;>
          exact hpres

/-- Fixture: the default faction record. -/
def defaultFaction : Faction :=
  { name := "", color := ⟨0, 0, 0⟩, controllable := true }

/-- Fixture: an empty World Registry. -/
def emptyFactionState : FactionState :=
  { num_factions := 0
    factions := fun _ => defaultFaction
    diplomacy_table := fun _ _ => DiplomacyState.peace }

/-- Fixture: a well-formed vec3 color attribute line. -/
def redVec3Attr : Attr :=
  { key := "color", type := AttrType.vec3, as_string := "",
    as_quat := ⟨0, 0, 0, 1⟩, as_vec3 := ⟨1, 0, 0⟩, as_bool := false,
    as_float := 0, as_int := 0 }

/-- Fixture: a malformed scene file that announces one faction, provides a
fully well-formed faction block, and then ends before the num_entities
header. -/
def truncatedSceneStream : List SceneLine :=
  [SceneLine.numFactionsLine 1, SceneLine.factionLine "reds",
   SceneLine.attrLine redVec3Attr]

/-- C1 counterexample: on this malformed scene file Scene_Load returns
false, yet the World Registry was mutated: the faction added by
G_AddFaction during the failed load remains registered. -/
theorem scene_load_partial_mutation_cx :
    (Scene_Load (fun _ _ => true) truncatedSceneStream emptyFactionState).1 = false ∧
    emptyFactionState.num_factions = 0 ∧
    (Scene_Load (fun _ _ => true) truncatedSceneStream emptyFactionState).2.num_factions = 1 ∧
    (Scene_Load (fun _ _ => true) truncatedSceneStream emptyFactionState).2.factions 0
      = { name := "reds", color := ⟨1, 0, 0⟩, controllable := true } := by
  refine ⟨rfl, rfl, rfl, rfl⟩

/-! ## C6 and C9: the upward parent walk -/

lemma walkMat_neg (p : Nat → Int) (L : Nat → Mat4) (fuel : Nat) (idx : Int)
    (acc : Mat4) (h : idx < 0) : walkMat p L fuel idx acc = some acc := by
  cases fuel <;> simp [walkMat, h]

lemma walkMat_fuel_mono (p : Nat → Int) (L : Nat → Mat4) :
    ∀ (f1 f2 : Nat) (idx : Int) (acc m : Mat4), f1 ≤ f2 →
      walkMat p L f1 idx acc = some m → walkMat p L f2 idx acc = some m := by
  intro f1
  induction f1 with
  | zero =>
    intro f2 idx acc m _ h
    by_cases hneg : idx < 0
    · rw [walkMat_neg p L 0 idx acc hneg] at h
      rw [walkMat_neg p L f2 idx acc hneg]
      exact h
    · simp [walkMat, hneg] at h
  | succ f ih =>
    intro f2 idx acc m hle h
    by_cases hneg : idx < 0
    · rw [walkMat_neg p L (f + 1) idx acc hneg] at h
      rw [walkMat_neg p L f2 idx acc hneg]
      exact h
    · obtain ⟨f2m, rfl⟩ : ∃ f2m, f2 = f2m + 1 := ⟨f2 - 1, by omega⟩
      simp only [walkMat, if_neg hneg] at h ⊢
      exact ih f2m _ _ m (by omega) h

lemma walkMat_acc (p : Nat → Int) (L : Nat → Mat4) :
    ∀ (fuel : Nat) (idx : Int) (acc : Mat4),
      walkMat p L fuel idx acc
        = (walkMat p L fuel idx 1).map (fun m => m * acc) := by
  intro fuel
  induction fuel with
  | zero =>
    intro idx acc
    by_cases hneg : idx < 0 <;> simp [walkMat, hneg, one_mul]
  | succ f ih =>
    intro idx acc
    by_cases hneg : idx < 0
    · simp [walkMat, hneg, one_mul]
    · simp only [walkMat, if_neg hneg]
      rw [ih (p idx.toNat) (L idx.toNat * acc), ih (p idx.toNat) (L idx.toNat * 1)]
      cases walkMat p L f (p idx.toNat) 1 <;> simp [mul_assoc]

lemma parentChain_shift (p : Nat → Int) (j : Int) (k : Nat) :
    parentChain p j (k + 1) = parentChain p (chainStep p j) k := by
  induction k with
  | zero => rfl
  | succ k ih =>
    show chainStep p (parentChain p j (k + 1)) = chainStep p (parentChain p (chainStep p j) k)
    rw [ih]

lemma walkMat_isSome_of_chain (p : Nat → Int) (L : Nat → Mat4) :
    ∀ (fuel : Nat) (idx : Int) (acc : Mat4),
      (∃ k, k ≤ fuel ∧ parentChain p idx k < 0) →
      (walkMat p L fuel idx acc).isSome := by
  intro fuel
  induction fuel with
  | zero =>
    rintro idx acc ⟨k, hk, hneg⟩
    have hk0 : k = 0 := by omega
    subst hk0
    have hidx : idx < 0 := hneg
    simp [walkMat, hidx]
  | succ f ih =>
    rintro idx acc ⟨k, hk, hneg⟩
    by_cases h0 : idx < 0
    · simp [walkMat, h0]
    · have hk0 : k ≠ 0 := by
        intro h
        subst h
        exact h0 hneg
      obtain ⟨km, rfl⟩ : ∃ km, k = km + 1 := ⟨k - 1, by omega⟩
      rw [parentChain_shift] at hneg
      simp only [walkMat, if_neg h0]
      apply ih
      refine ⟨km, by omega, ?_⟩
      rwa [show chainStep p idx = p idx.toNat from by simp [chainStep, h0]] at hneg

lemma chain_reaches_neg (p : Nat → Int) (n : Nat)
    (hbound : ∀ i : Nat, i < n → p i < (n : Int))
    (j : Int) (hj0 : 0 ≤ j) (hjn : j < (n : Int))
    (hacyc : ∀ k2 : Nat, k2 ≤ n → ∀ k1 : Nat, k1 < k2 →
        parentChain p j k1 = parentChain p j k2 → parentChain p j k1 < 0) :
    ∃ k, k ≤ n ∧ parentChain p j k < 0 := by
  by_contra hcon
  push_neg at hcon
  have hin : ∀ k, k ≤ n → 0 ≤ parentChain p j k ∧ parentChain p j k < (n : Int) := by
    intro k
    induction k with
    | zero => intro _; exact ⟨hj0, hjn⟩
    | succ k ih =>
      intro hk
      have h1 := ih (by omega)
      have hstep : parentChain p j (k + 1) = p (parentChain p j k).toNat := by
        show chainStep p (parentChain p j k) = _
        simp [chainStep, not_lt.mpr h1.1]
      refine ⟨hcon (k + 1) hk, ?_⟩
      rw [hstep]
      apply hbound
      have h2 := h1.2
      omega
  have hmap : ∀ k ∈ Finset.range (n + 1),
      (parentChain p j k).toNat ∈ Finset.range n := by
    intro k hk
    simp only [Finset.mem_range] at hk ⊢
    have := hin k (by omega)
    omega
  have hcard : (Finset.range n).card < (Finset.range (n + 1)).card := by simp
  obtain ⟨k1, hk1, k2, hk2, hne, heq⟩ :=
    Finset.exists_ne_map_eq_of_card_lt_of_maps_to hcard hmap
  simp only [Finset.mem_range] at hk1 hk2
  have hchain : parentChain p j k1 = parentChain p j k2 := by
    have e1 := (hin k1 (by omega)).1
    have e2 := (hin k2 (by omega)).1
    omega
  rcases Nat.lt_or_ge k1 k2 with hlt | hge
  · have := hacyc k2 (by omega) k1 hlt hchain
    exact absurd this (not_lt.mpr (hin k1 (by omega)).1)
  · have hlt : k2 < k1 := by omega
    have := hacyc k1 (by omega) k2 hlt hchain.symm
    exact absurd this (not_lt.mpr (hin k2 (by omega)).1)

/-- C9: in a skeleton whose joints have in-range parent references and
whose parent chains never revisit a live joint (no cycles), the upward
walks of a_make_bind_mat and a_make_pose_mat terminate for every joint:
the parent chain reaches a negative index within num_joints steps, both
walks complete with fuel num_joints, and any larger iteration budget
computes the same result (at most num_joints iterations are ever used). -/
theorem parent_walk_terminates (skel : Skeleton) (ent : Ent)
    (hbound : ∀ i : Nat, i < skel.num_joints →
        skel.parent_idx i < (skel.num_joints : Int))
    (hacyc : ∀ j : Int, 0 ≤ j → j < (skel.num_joints : Int) →
        ∀ k2 : Nat, k2 ≤ skel.num_joints → ∀ k1 : Nat, k1 < k2 →
          parentChain skel.parent_idx j k1 = parentChain skel.parent_idx j k2 →
          parentChain skel.parent_idx j k1 < 0) :
    ∀ j : Int, 0 ≤ j → j < (skel.num_joints : Int) →
      (∃ k, k ≤ skel.num_joints ∧ parentChain skel.parent_idx j k < 0) ∧
      (a_make_bind_mat j skel).isSome ∧
      (a_make_pose_mat ent j skel).isSome ∧
      (∀ (L : Nat → Mat4) (fuel : Nat), skel.num_joints ≤ fuel →
        walkMat skel.parent_idx L fuel j 1
          = walkMat skel.parent_idx L skel.num_joints j 1) := by
  intro j hj0 hjn
  have hterm := chain_reaches_neg skel.parent_idx skel.num_joints hbound j hj0 hjn
    (hacyc j hj0 hjn)
  refine ⟨hterm, ?_, ?_, ?_⟩
  · exact walkMat_isSome_of_chain _ _ _ _ _ hterm
  · exact walkMat_isSome_of_chain _ _ _ _ _ hterm
  · intro L fuel hfuel
    have hs := walkMat_isSome_of_chain skel.parent_idx L skel.num_joints j 1 hterm
    obtain ⟨m, hm⟩ := Option.isSome_iff_exists.mp hs
    rw [hm]
    exact walkMat_fuel_mono _ _ _ _ _ _ _ hfuel hm

/-- C6: the local transform built from an SQT is the T * R * S product; for
a skeleton with terminating parent chains, the pose matrix a_make_pose_mat
computes for a root joint (negative parent index) is the joint's own local
transform, and for any other joint it is the parent's pose matrix
multiplied on the right by the joint's own local transform. -/
theorem pose_matrix_trs_and_recursion (ent : Ent) (skel : Skeleton)
    (hterm : ∀ j : Int, 0 ≤ j → j < (skel.num_joints : Int) →
        ∃ k, k ≤ skel.num_joints ∧ parentChain skel.parent_idx j k < 0) :
    (∀ sqt : SQT, a_mat_from_sqt sqt =
        PFM_Mat4x4_MakeTrans sqt.trans.x sqt.trans.y sqt.trans.z *
        PFM_Mat4x4_RotFromQuat sqt.quat_rotation *
        PFM_Mat4x4_MakeScale sqt.scale.x sqt.scale.y sqt.scale.z) ∧
    (∀ j : Nat, j < skel.num_joints → skel.parent_idx j < 0 →
        a_make_pose_mat ent (j : Int) skel =
          some (a_mat_from_sqt
            ((ent.anim.active.samples ent.anim.curr_frame).local_joint_poses j))) ∧
    (∀ j : Nat, j < skel.num_joints → 0 ≤ skel.parent_idx j →
        a_make_pose_mat ent (j : Int) skel =
          (a_make_pose_mat ent (skel.parent_idx j) skel).map
            (fun m => m * a_mat_from_sqt
              ((ent.anim.active.samples ent.anim.curr_frame).local_joint_poses j))) := by
  refine ⟨?_, ?_, ?_⟩
  · intro sqt
    simp [a_mat_from_sqt, mul_assoc]
  · intro j hj hneg
    obtain ⟨nm, hn⟩ : ∃ nm, skel.num_joints = nm + 1 := ⟨skel.num_joints - 1, by omega⟩
    unfold a_make_pose_mat
    rw [hn]
    simp only [walkMat, if_neg (show ¬((j : Int) < 0) by omega), Int.toNat_natCast]
    rw [walkMat_neg _ _ _ _ _ hneg, mul_one]
  · intro j hj hppos
    obtain ⟨k, hk, hneg⟩ := hterm j (by omega) (by omega)
    have hk0 : k ≠ 0 := by
      intro h
      subst h
      have : (j : Int) < 0 := hneg
      omega
    obtain ⟨km, rfl⟩ : ∃ km, k = km + 1 := ⟨k - 1, by omega⟩
    rw [parentChain_shift,
      show chainStep skel.parent_idx (j : Int) = skel.parent_idx j from by
        simp [chainStep, show ¬((j : Int) < 0) by omega]] at hneg
    obtain ⟨nm, hn⟩ : ∃ nm, skel.num_joints = nm + 1 := ⟨skel.num_joints - 1, by omega⟩
    unfold a_make_pose_mat
    rw [hn]
    have hs : (walkMat skel.parent_idx
        (fun i => a_mat_from_sqt
          ((ent.anim.active.samples ent.anim.curr_frame).local_joint_poses i))
        nm (skel.parent_idx j) 1).isSome :=
      walkMat_isSome_of_chain _ _ nm (skel.parent_idx j) 1 ⟨km, by omega, hneg⟩
    obtain ⟨m, hm⟩ := Option.isSome_iff_exists.mp hs
    have hm2 : walkMat skel.parent_idx
        (fun i => a_mat_from_sqt
          ((ent.anim.active.samples ent.anim.curr_frame).local_joint_poses i))
        (nm + 1) (skel.parent_idx j) 1 = some m :=
      walkMat_fuel_mono _ _ _ _ _ _ _ (by omega) hm
    rw [hm2]
    simp only [walkMat, if_neg (show ¬((j : Int) < 0) by omega), Int.toNat_natCast]
    rw [walkMat_acc, hm]
    simp [mul_one]

/-! ## Concrete fixtures for the witnesses -/

/-- Fixture: the identity SQT. -/
def idSQT : SQT :=
  { scale := ⟨1, 1, 1⟩, quat_rotation := ⟨0, 0, 0, 1⟩, trans := ⟨0, 0, 0⟩ }

/-- Fixture: a two-frame idle clip. -/
def sampleClip : AnimClip :=
  { name := "idle", num_frames := 2,
    samples := fun _ => { local_joint_poses := fun _ => idSQT } }

/-- Fixture: a three-joint chain skeleton 2 -> 1 -> 0 -> root. -/
def sampleSkeleton : Skeleton :=
  { num_joints := 3
    parent_idx := fun i => if i = 0 then -1 else if i = 1 then 0 else if i = 2 then 1 else -1
    bind_sqts := fun _ => idSQT }

/-- Fixture: an animated entity playing the idle clip at key_fps 2, on
frame 1 of 2, whose frame started at tick 0. -/
def sampleEnt : Ent :=
  { uid := 7
    flags := { animated := true, collision := true, static := false,
               selectable := false, combatable := false, invisible := false,
               zombie := false }
    faction_id := 0
    render_private := 0
    model_mat := 0
    anim := { active := sampleClip, idle := sampleClip, mode := AnimMode.loop,
              key_fps := 2, curr_frame := 1, curr_frame_start_ticks := 0 }
    anim_data := { skel := sampleSkeleton, anims := [sampleClip] } }

/-- Fixture: a registry of three factions all at peace. -/
def sampleFactionState3 : FactionState :=
  { num_factions := 3
    factions := fun _ => defaultFaction
    diplomacy_table := fun _ _ => DiplomacyState.peace }

/-! ## Witnesses -/

/-- Witness for C5 at the concrete entity and zero elapsed time. -/
theorem anim_update_no_advance_witness :
    ((elapsedMs sampleEnt.anim.curr_frame_start_ticks 0 : ℚ) / 1000)
        < 1 / sampleEnt.anim.key_fps ∧
    A_Update sampleEnt 0 = (sampleEnt, []) := by
  have h : ((elapsedMs sampleEnt.anim.curr_frame_start_ticks 0 : ℚ) / 1000)
      < 1 / sampleEnt.anim.key_fps := by
    norm_num [sampleEnt, sampleClip, elapsedMs]
  exact ⟨h, anim_update_no_advance sampleEnt 0 h⟩

/-- Witness for C4 at the concrete entity, 600 ms after frame 1 of 2
started: the update wraps to frame 0. -/
theorem anim_update_advance_and_wrap_witness :
    0 < sampleEnt.anim.key_fps ∧
    0 < sampleEnt.anim.active.num_frames ∧
    a_clip_for_name sampleEnt.anim_data.anims sampleEnt.anim.idle.name
      = some sampleEnt.anim.idle ∧
    ((1 : ℚ) / sampleEnt.anim.key_fps
      < (elapsedMs sampleEnt.anim.curr_frame_start_ticks 600 : ℚ) / 1000) ∧
    (A_Update sampleEnt 600).1.anim.curr_frame
      = (sampleEnt.anim.curr_frame + 1) % sampleEnt.anim.active.num_frames := by
  have h1 : 0 < sampleEnt.anim.key_fps := by decide
  have h2 : 0 < sampleEnt.anim.active.num_frames := by decide
  have h3 : a_clip_for_name sampleEnt.anim_data.anims sampleEnt.anim.idle.name
      = some sampleEnt.anim.idle := rfl
  have h4 : (1 : ℚ) / sampleEnt.anim.key_fps
      < (elapsedMs sampleEnt.anim.curr_frame_start_ticks 600 : ℚ) / 1000 := by
    norm_num [sampleEnt, sampleClip, elapsedMs]
  exact ⟨h1, h2, h3, h4,
    (anim_update_advance_and_wrap sampleEnt 600 h1 h2 h3 h4).1⟩

/-- Witness for C9 at the three-joint chain skeleton. -/
theorem parent_walk_terminates_witness :
    (∀ i : Nat, i < sampleSkeleton.num_joints →
        sampleSkeleton.parent_idx i < (sampleSkeleton.num_joints : Int)) ∧
    (∀ j : Int, 0 ≤ j → j < (sampleSkeleton.num_joints : Int) →
        ∀ k2 : Nat, k2 ≤ sampleSkeleton.num_joints → ∀ k1 : Nat, k1 < k2 →
          parentChain sampleSkeleton.parent_idx j k1
              = parentChain sampleSkeleton.parent_idx j k2 →
          parentChain sampleSkeleton.parent_idx j k1 < 0) ∧
    (a_make_bind_mat 2 sampleSkeleton).isSome ∧
    (a_make_pose_mat sampleEnt 2 sampleSkeleton).isSome := by
  have hb : ∀ i : Nat, i < sampleSkeleton.num_joints →
      sampleSkeleton.parent_idx i < (sampleSkeleton.num_joints : Int) := by decide
  have ha : ∀ j : Int, 0 ≤ j → j < (sampleSkeleton.num_joints : Int) →
      ∀ k2 : Nat, k2 ≤ sampleSkeleton.num_joints → ∀ k1 : Nat, k1 < k2 →
        parentChain sampleSkeleton.parent_idx j k1
            = parentChain sampleSkeleton.parent_idx j k2 →
        parentChain sampleSkeleton.parent_idx j k1 < 0 := by
    intro j h0 hlt
    have hlt3 : j < 3 := hlt
    interval_cases j <;> decide
  have hres := parent_walk_terminates sampleSkeleton sampleEnt hb ha 2
    (by decide) (by decide)
  exact ⟨hb, ha, hres.2.1, hres.2.2.1⟩

/-- Witness for C6 at the three-joint chain skeleton: the root law at joint
0 and the recursion law at joint 2 (parent 1). -/
theorem pose_matrix_trs_and_recursion_witness :
    (∀ j : Int, 0 ≤ j → j < (sampleSkeleton.num_joints : Int) →
        ∃ k, k ≤ sampleSkeleton.num_joints ∧
          parentChain sampleSkeleton.parent_idx j k < 0) ∧
    a_make_pose_mat sampleEnt ((0 : Nat) : Int) sampleSkeleton
      = some (a_mat_from_sqt
          ((sampleEnt.anim.active.samples sampleEnt.anim.curr_frame).local_joint_poses 0)) ∧
    a_make_pose_mat sampleEnt ((2 : Nat) : Int) sampleSkeleton
      = (a_make_pose_mat sampleEnt (sampleSkeleton.parent_idx 2) sampleSkeleton).map
          (fun m => m * a_mat_from_sqt
            ((sampleEnt.anim.active.samples sampleEnt.anim.curr_frame).local_joint_poses 2)) := by
  have hterm : ∀ j : Int, 0 ≤ j → j < (sampleSkeleton.num_joints : Int) →
      ∃ k, k ≤ sampleSkeleton.num_joints ∧
        parentChain sampleSkeleton.parent_idx j k < 0 := by
    intro j h0 hlt
    have hlt3 : j < 3 := hlt
    interval_cases j
    · exact ⟨1, by decide, by decide⟩
    · exact ⟨2, by decide, by decide⟩
    · exact ⟨3, by decide, by decide⟩
  have hres := pose_matrix_trs_and_recursion sampleEnt sampleSkeleton hterm
  exact ⟨hterm, hres.2.1 0 (by decide) (by decide), hres.2.2 2 (by decide) (by decide)⟩

/-- Witness for C7 at the three-faction registry: set war between 0 and 1;
remove faction 1 and check survivors 0 and 2. -/
theorem diplomacy_symmetric_and_compacts_witness :
    ((0 : Int) ≤ 0 ∧ (0 : Int) < (sampleFactionState3.num_factions : Int) ∧
     (0 : Int) ≤ 1 ∧ (1 : Int) < (sampleFactionState3.num_factions : Int) ∧
     (0 : Int) ≠ 1) ∧
    ((G_SetDiplomacyState sampleFactionState3 0 1 DiplomacyState.war).1 = true ∧
     (G_SetDiplomacyState sampleFactionState3 0 1 DiplomacyState.war).2.diplomacy_table 0 1
       = DiplomacyState.war ∧
     (G_SetDiplomacyState sampleFactionState3 0 1 DiplomacyState.war).2.diplomacy_table 1 0
       = DiplomacyState.war) ∧
    (2 ≤ sampleFactionState3.num_factions ∧ (0 : Int) ≤ 1 ∧
     (1 : Int) < (sampleFactionState3.num_factions : Int) ∧
     (0 : Int) ≠ 1 ∧ (2 : Int) ≠ 1) ∧
    ((G_RemoveFaction sampleFactionState3 [] 1).1 = true ∧
     (G_RemoveFaction sampleFactionState3 [] 1).2.1.num_factions
       = sampleFactionState3.num_factions - 1 ∧
     (G_RemoveFaction sampleFactionState3 [] 1).2.1.diplomacy_table
         (if (1 : Int) < 0 then (0 : Int) - 1 else 0) (if (1 : Int) < 2 then (2 : Int) - 1 else 2)
       = sampleFactionState3.diplomacy_table 0 2) := by
  refine ⟨⟨by decide, by decide, by decide, by decide, by decide⟩, ?_, ?_, ?_⟩
  · exact diplomacy_symmetric_and_compacts.1 sampleFactionState3 0 1 DiplomacyState.war
      (by decide) (by decide) (by decide) (by decide) (by decide)
  · exact ⟨by decide, by decide, by decide, by decide, by decide⟩
  · exact diplomacy_symmetric_and_compacts.2.2.2.1 sampleFactionState3 [] 1 0 2
      (by decide) (by decide) (by decide) (by decide) (by decide) (by decide)
      (by decide) (by decide) (by decide)

/-- Witness for C1 (amended) at a concrete registry and stream. -/
theorem scene_load_preserves_existing_witness :
    RegistryPreserved sampleFactionState3
      (Scene_Load (fun _ _ => true) truncatedSceneStream sampleFactionState3).2 :=
  scene_load_reports_failure_preserves_existing (fun _ _ => true)
    truncatedSceneStream sampleFactionState3

/-- Witness for C10 at the concrete entity and a singleton registry. -/
theorem zombiefy_never_visible_witness :
    (G_Zombiefy sampleEnt).flags.collision = false ∧
    G_Zombiefy sampleEnt ∉
      (G_Update [G_Zombiefy sampleEnt] G_RUNNING 0
        (fun _ => true) (fun _ => true)).visible :=
  ⟨(zombiefy_flags_and_never_visible sampleEnt).2.1,
   ((zombiefy_flags_and_never_visible sampleEnt).2.2.2.2.2.2.2
      [G_Zombiefy sampleEnt] G_RUNNING 0 (fun _ => true) (fun _ => true)).1⟩

end PFE
